import Mathlib

/-!
Verification of the resilient GraphQL execution layer of go-shopify-graphql:
the retry loop of `Client.do`, the error classification of `Client.doRequest`
and `Client.shouldRetry`, the cursor-pagination walker `ProductServiceOp.Get`,
and the authenticating `transport.RoundTrip`.

Go pointers, slices and `error` values are embedded as plain Lean data;
machine integers are embedded as `Int`/`Nat` (no value in these code paths
approaches overflow and none is manipulated modularly).
-/

deriving instance DecidableEq for Except

namespace Shopify

/-- `MaxCostExceeded` constant from the client source. -/
def MaxCostExceeded : String := "MAX_COST_EXCEEDED"

/-- The `Extensions` part of a GraphQL error record
(struct embedded in `graphErrors`). -/
structure GraphErrExtensions where
  code : String
  cost : Int
  maxCost : Int
  documentation : String
  deriving DecidableEq, Repr

/-- One element of the `errors` array in a GraphQL response
(element type of `graphErrors`). Locations are (line, column) pairs. -/
structure GraphError where
  message : String
  extensions : GraphErrExtensions
  locations : List (Int × Int)
  deriving DecidableEq, Repr

/-- Go `error` values that flow through `doRequest`/`do`/`shouldRetry`:
the sentinel error variables, `*url.Error` (with its `Timeout()` and
`Temporary()` flags), a `graphErrors` list returned via the `error`
interface, a connection-level error (recognised by the external
`pkghttp.IsConnectionError`), any other error carrying only a message, and
the `fmt.Errorf("after %v attempts: %w", attempts, err)` wrapper built by
`do`. -/
inductive GoErr where
  | paymentRequired
  | locked
  | unauthorized
  | forbidden
  | notFound
  | internal
  | serviceUnavailable
  | gatewayTimeout
  | maxCostExceeded
  | urlError (timeout temporary : Bool)
  | connectionError
  | graphErrs (es : List GraphError)
  | other (msg : String)
  | wrapped (attempts : Nat) (inner : GoErr)
  deriving DecidableEq, Repr

/-- `graphErrors.Error()`: the message of the first record. The Go code
documents the slice as non-empty whenever it is returned as an error; on the
(unreachable) empty slice the Go code would panic, embedded as `""`. -/
def graphErrorsString : List GraphError → String
  | [] => ""
  | e :: _ => e.message

/-- `Error()` of each embedded error value. The sentinel error variables
(`ErrPaymentRequired`, `ErrLocked`, ..., `ErrMaxCostExceeded`) are declared
outside the provided sources; modelled from the spec: they are distinct
fixed messages, none of which is the throttling sentinel `"Throttled"`. -/
def errString : GoErr → String
  | .paymentRequired => "payment required"
  | .locked => "locked"
  | .unauthorized => "unauthorized"
  | .forbidden => "forbidden"
  | .notFound => "not found"
  | .internal => "internal server error"
  | .serviceUnavailable => "service unavailable"
  | .gatewayTimeout => "gateway timeout"
  | .maxCostExceeded => "max cost exceeded"
  | .urlError _ _ => "url error"
  | .connectionError => "connection error"
  | .graphErrs es => graphErrorsString es
  | .other msg => msg
  | .wrapped attempts inner =>
      "after " ++ toString attempts ++ " attempts: " ++ errString inner

/-- `errors.Is(err, target)`: matches the target directly or through the
`%w` wrapping chain introduced by `fmt.Errorf` in `do`. -/
def errorsIs : GoErr → GoErr → Bool
  | .wrapped a inner, target =>
      GoErr.wrapped a inner == target || errorsIs inner target
  | e, target => e == target

/-- `isThrottledError`: a non-nil error whose `Error()` is `"Throttled"`. -/
def isThrottledError (e : GoErr) : Bool :=
  errString e == "Throttled"

/-- Modelled from the spec: `pkghttp.IsConnectionError` lives in this
repository's `http` package, which is not among the provided sources; the
spec classifies connection-level network failures as transport errors
detected below the protocol layer. It recognises exactly the
connection-error values. -/
def IsConnectionError : GoErr → Bool
  | .connectionError => true
  | _ => false

/-- `Client.shouldRetry`: a `*url.Error` is retryable iff it reports
timeout or temporary; otherwise retry on throttled message, connection
error, or an error chain matching `ErrMaxCostExceeded`, `ErrGatewayTimeout`
or `ErrServiceUnavailable`. -/
def shouldRetry (e : GoErr) : Bool :=
  match e with
  | .urlError timeout temporary => timeout || temporary
  | _ =>
      isThrottledError e || IsConnectionError e ||
      errorsIs e .maxCostExceeded || errorsIs e .gatewayTimeout ||
      errorsIs e .serviceUnavailable

/-- The GraphQL `Client`: URL and HTTP client are irrelevant to the verified
behaviour; `retries` is the stored retry budget (a Go `int`). -/
structure Client where
  retries : Int
  deriving DecidableEq, Repr

/-- `Client.SetRetries`. -/
def Client.SetRetries (c : Client) (retries : Int) : Client :=
  { c with retries := retries }

/-- The retry loop of `Client.do`. `outcomes i` is the result of the `i`-th
call to `doRequest` (1-indexed; `none` = success). The Go loop reads the
budget into the local variable `retries`, tests `retries <= 1` and
decrements it; these are the only operations on it, so the loop is stated on
`retries.toNat` (a non-positive Go budget behaves exactly like `0`, and
`r ≤ 1` on `Int` holds iff `r.toNat ≤ 1`). The Go test `retries <= 1` is the
case split `0`/`1` versus `r + 2` below; success (`err == nil`) breaks out
of the loop before that test in every case. Returns the result of the
operation together with the number of attempts made. -/
def doLoop (outcomes : Nat → Option GoErr) :
    Nat → Nat → Except GoErr Unit × Nat
  | 0, attempts =>
    match outcomes (attempts + 1) with
    | none => (.ok (), attempts + 1)
    | some e => (.error (.wrapped (attempts + 1) e), attempts + 1)
  | 1, attempts =>
    match outcomes (attempts + 1) with
    | none => (.ok (), attempts + 1)
    | some e => (.error (.wrapped (attempts + 1) e), attempts + 1)
  | r + 2, attempts =>
    match outcomes (attempts + 1) with
    | none => (.ok (), attempts + 1)
    | some e =>
      if shouldRetry e then doLoop outcomes (r + 1) (attempts + 1)
      else (.error e, attempts + 1)

/-- `Client.do`: runs the retry loop starting from the stored budget. The
Go method never assigns to `c.retries` (it works on a local copy), so the
client record is returned unchanged alongside the result and the number of
attempts made. -/
def Client.do (c : Client) (outcomes : Nat → Option GoErr) :
    (Except GoErr Unit × Nat) × Client :=
  (doLoop outcomes c.retries.toNat 0, c)

/-! ## `Client.doRequest`

The request body, URL and HTTP client do not affect the verified
classification; what matters is the HTTP outcome: a transport error, or a
response with a status code and a body. A body that is not a well-formed
envelope is `none`; the `data` field of an envelope, when present, either
unmarshals into a value of the destination type or fails. -/

/-- The raw `data` field of a response envelope: either unmarshals into a
destination value `a`, or `json.Unmarshal` fails on it. -/
inductive RawData (α : Type) where
  | good (a : α)
  | bad
  deriving DecidableEq, Repr

/-- The decoded response envelope `{Data *json.RawMessage; Errors graphErrors}`. -/
structure Envelope (α : Type) where
  data : Option (RawData α)
  errors : List GraphError
  deriving DecidableEq, Repr

/-- The outcome of `ctxhttp.Post`: a transport error, or a response with a
status code and (possibly malformed, `none`) envelope body. -/
inductive HTTPOutcome (α : Type) where
  | transportErr (e : GoErr)
  | response (status : Nat) (body : Option (Envelope α))
  deriving DecidableEq, Repr

/-- `Client.doRequest`: status-code classification in source order, envelope
decoding, unmarshalling of `data` into the destination `v` (returned as the
second component, since Go mutates `v` in place), and classification of a
non-empty `errors` array — `ErrMaxCostExceeded` if any record's extensions
code is `MAX_COST_EXCEEDED`, else the `graphErrors` value itself. -/
def doRequest {α : Type} (resp : HTTPOutcome α) (v : α) :
    Except GoErr Unit × α :=
  match resp with
  | .transportErr e => (.error e, v)
  | .response status body =>
    if status = 402 then (.error .paymentRequired, v)
    else if status = 423 then (.error .locked, v)
    else if status = 401 then (.error .unauthorized, v)
    else if status = 403 then (.error .forbidden, v)
    else if status = 404 then (.error .notFound, v)
    else if status = 500 then (.error .internal, v)
    else if status = 503 then (.error .serviceUnavailable, v)
    else if status = 504 then (.error .gatewayTimeout, v)
    else if status ≠ 200 then
      (.error (.other ("non-200 OK status code: " ++ toString status)), v)
    else
      match body with
      | none => (.error (.other "JSON decode response"), v)
      | some env =>
        match env.data with
        | some .bad => (.error (.other "unmarshal data"), v)
        | some (.good a) =>
          if env.errors ≠ [] then
            if env.errors.any (fun ge => ge.extensions.code = MaxCostExceeded)
              then (.error .maxCostExceeded, a)
              else (.error (.graphErrs env.errors), a)
          else (.ok (), a)
        | none =>
          if env.errors ≠ [] then
            if env.errors.any (fun ge => ge.extensions.code = MaxCostExceeded)
              then (.error .maxCostExceeded, v)
              else (.error (.graphErrs env.errors), v)
          else (.ok (), v)

/-! ## The pagination walker `ProductServiceOp.Get`

`model.Product` carries many fields; `Get` touches only
`Variants.Edges` (cursor + node) and `Variants.PageInfo.HasNextPage`, all of
which sit behind Go pointers, embedded as `Option`. `getPage` fixes the
product id and performs one page fetch, so the server is a function from
the cursor (`""` = first page, where the cursor variable is omitted) to a
fetch result. Within `Get`, `nextPageData` is initialised to the pointer
`out` and never reassigned (the `:=` inside the loop shadows it), so every
read through `nextPageData` observes `out`'s accumulated edge list. -/

/-- A variant edge: `Cursor` plus the node payload (opaque here). -/
structure Edge where
  cursor : String
  node : String
  deriving DecidableEq, Repr

/-- `PageInfo` (only `HasNextPage` is read by `Get`). -/
structure PageInfo where
  hasNextPage : Bool
  deriving DecidableEq, Repr

/-- The `Variants` connection: edge list and (pointer to) page info. -/
structure VariantConnection where
  edges : List Edge
  pageInfo : Option PageInfo
  deriving DecidableEq, Repr

/-- `model.Product` restricted to the fields `Get` reads and writes. -/
structure Product where
  variants : Option VariantConnection
  deriving DecidableEq, Repr

/-- Result of one `getPage` call: an error, or a (possibly nil) product. -/
inductive FetchResult where
  | err (e : GoErr)
  | ok (p : Option Product)
  deriving DecidableEq, Repr

/-- Outcome of the pagination walk: the final product (`Get`'s non-error
return), a propagated page-fetch error, a nil-pointer dereference panic
(`nextPageData` or its `Variants`/`PageInfo` nil inside the loop), or
non-termination of the Go loop beyond the given fuel. -/
inductive GetOutcome where
  | ok (p : Option Product)
  | err (e : GoErr)
  | panic
  | diverge
  deriving DecidableEq, Repr

/-- Outcome of the `for` loop inside `Get`: the final accumulated edge
list, or an abnormal exit. -/
inductive LoopOutcome where
  | done (acc : List Edge)
  | err (e : GoErr)
  | panic
  | diverge
  deriving DecidableEq, Repr

/-- The cursor taken at the top of each loop iteration:
`nextPageData.Variants.Edges[len-1].Cursor`, where `nextPageData` aliases
`out`, i.e. the last cursor of the ACCUMULATED edge list (only evaluated
when the list is non-empty; `""` is a dead default). -/
def lastCursor (acc : List Edge) : String :=
  (acc.getLast?.map Edge.cursor).getD ""

/-- The `for hasNextPage && len(nextPageData.Variants.Edges) > 0` loop of
`Get`. `acc` is `out.Variants.Edges` (which `nextPageData` aliases),
`hasNext` the loop-local `hasNextPage` variable. Each iteration fetches the
next page with the last accumulated cursor, propagates a fetch error,
appends the fetched page's edges to the accumulator, and reads the fetched
page's `HasNextPage`. The second component is the ordered list of cursors
fetched by the loop. The Go loop need not terminate; `fuel` bounds the
iterations observed and exhaustion yields `.diverge`. -/
def getLoop (fetch : String → FetchResult) :
    Nat → List Edge → Bool → LoopOutcome × List String
  | 0, _, _ => (.diverge, [])
  | fuel + 1, acc, hasNext =>
    if hasNext ∧ acc ≠ [] then
      let cursor := lastCursor acc
      match fetch cursor with
      | .err e => (.err e, [cursor])
      | .ok none => (.panic, [cursor])
      | .ok (some p) =>
        match p.variants with
        | none => (.panic, [cursor])
        | some vc =>
          match vc.pageInfo with
          | none => (.panic, [cursor])
          | some pi =>
            let r := getLoop fetch fuel (acc ++ vc.edges) pi.hasNextPage
            (r.1, cursor :: r.2)
    else (.done acc, [])

/-- `ProductServiceOp.Get`: fetch the first page (empty cursor); on error
return it; when the product, its `Variants` and its `PageInfo` are all
non-nil, run the pagination loop seeded with the first page's edges and
`HasNextPage`, then return `out` with its edge list replaced by the
accumulated list (all other fields of `out`, including `PageInfo`, are the
first page's). The second component is the ordered list of cursors
fetched. -/
def productGet (fetch : String → FetchResult) (fuel : Nat) :
    GetOutcome × List String :=
  match fetch "" with
  | .err e => (.err e, [""])
  | .ok none => (.ok none, [""])
  | .ok (some p) =>
    match p.variants with
    | none => (.ok (some p), [""])
    | some vc =>
      match vc.pageInfo with
      | none => (.ok (some p), [""])
      | some pi =>
        match getLoop fetch fuel vc.edges pi.hasNextPage with
        | (.done acc, log) =>
            (.ok (some { p with
                variants := some { vc with edges := acc } }), "" :: log)
        | (.err e, log) => (.err e, "" :: log)
        | (.panic, log) => (.panic, "" :: log)
        | (.diverge, log) => (.diverge, "" :: log)

/-! ## The authenticating `transport.RoundTrip` -/

/-- The `transport` struct from `graphqlclient` (the `apiVersion`/`apiPath`
fields do not influence `RoundTrip`'s header logic but are part of the
struct). -/
structure Transport where
  accessToken : String
  storeFrontAccessToken : String
  apiKey : String
  password : String
  apiVersion : String
  apiPath : String
  deriving DecidableEq, Repr

/-- The credential state of an outbound `*http.Request`: the
`X-Shopify-Access-Token` header, the basic-auth (user, password) pair, and
the `X-Shopify-Storefront-Access-Token` header. -/
structure Request where
  accessTokenHeader : Option String
  basicAuth : Option (String × String)
  storefrontHeader : Option String
  deriving DecidableEq, Repr

/-- The header-setting part of `transport.RoundTrip` (the subsequent
delegation to `http.DefaultTransport.RoundTrip` forwards the decorated
request unmodified). -/
def RoundTrip (t : Transport) (req : Request) : Request :=
  if t.accessToken ≠ "" then
    { req with accessTokenHeader := some t.accessToken }
  else if t.apiKey ≠ "" ∧ t.password ≠ "" then
    { req with basicAuth := some (t.apiKey, t.password) }
  else if t.storeFrontAccessToken ≠ "" then
    { req with storefrontHeader := some t.storeFrontAccessToken }
  else req

/-! ## Concrete scenarios used as witnesses and counterexamples -/

/-- A client configured with a retry budget of 2. -/
def clientTwo : Client := ⟨2⟩

/-- A client configured with a retry budget of 3. -/
def clientThree : Client := ⟨3⟩

/-- Attempt outcomes: the first attempt fails with a retryable error
(`ErrGatewayTimeout`), every later attempt succeeds. -/
def outcomesOneRetry : Nat → Option GoErr :=
  fun j => if j = 1 then some .gatewayTimeout else none

/-- Attempt outcomes: the first attempt fails retryably, every later
attempt fails with a non-retryable error. -/
def outcomesRetryThenFatal : Nat → Option GoErr :=
  fun j => if j = 1 then some .gatewayTimeout else some (.other "boom")

/-! ## Retry-loop lemmas -/

/-- If attempts `a+1 .. a+n` all fail retryably and attempt `a+n+1` fails
with `e`, then `doLoop` with budget `n+1` terminates at attempt `a+n+1`
with the error wrapped with that attempt count. -/
theorem doLoop_exhaust (outcomes : Nat → Option GoErr) :
    ∀ (n a : Nat) (e : GoErr),
    (∀ j, a < j → j < a + (n + 1) →
      ∃ ej, outcomes j = some ej ∧ shouldRetry ej = true) →
    outcomes (a + (n + 1)) = some e →
    doLoop outcomes (n + 1) a =
      (.error (.wrapped (a + (n + 1)) e), a + (n + 1)) := by
  intro n
  induction n with
  | zero =>
    intro a e _ he
    simp [doLoop, he]
  | succ m ih =>
    intro a e hpre he
    obtain ⟨e1, he1, hr1⟩ := hpre (a + 1) (by omega) (by omega)
    have step : doLoop outcomes (m + 1 + 1) a = doLoop outcomes (m + 1) (a + 1) := by
      simp [doLoop, he1, hr1]
    have he' : outcomes (a + 1 + (m + 1)) = some e := by
      rw [show a + 1 + (m + 1) = a + (m + 1 + 1) by omega]; exact he
    have tail := ih (a + 1) e
      (fun j hj1 hj2 => hpre j (by omega) (by omega)) he'
    rw [show a + (m + 1 + 1) = a + 1 + (m + 1) by omega, step, tail]

/-- If attempts `a+1 .. a+m` all fail retryably and attempt `a+m+1` fails
with a non-retryable error `e` while the budget is still above `1`
(`R ≥ m+2`), `doLoop` returns `e` unwrapped after `a+m+1` attempts. -/
theorem doLoop_raw (outcomes : Nat → Option GoErr) :
    ∀ (m a R : Nat) (e : GoErr),
    m + 2 ≤ R →
    (∀ j, a < j → j ≤ a + m →
      ∃ ej, outcomes j = some ej ∧ shouldRetry ej = true) →
    outcomes (a + m + 1) = some e →
    shouldRetry e = false →
    doLoop outcomes R a = (.error e, a + m + 1) := by
  intro m
  induction m with
  | zero =>
    intro a R e hR _ he hnr
    obtain ⟨r, rfl⟩ : ∃ r, R = r + 2 := ⟨R - 2, by omega⟩
    simp only [Nat.add_zero] at he ⊢
    simp [doLoop, he, hnr]
  | succ m ih =>
    intro a R e hR hpre he hnr
    obtain ⟨r, rfl⟩ : ∃ r, R = r + 2 := ⟨R - 2, by omega⟩
    obtain ⟨e1, he1, hr1⟩ := hpre (a + 1) (by omega) (by omega)
    obtain ⟨r', rfl⟩ : ∃ r', r = r' + 1 := ⟨r - 1, by omega⟩
    have step : doLoop outcomes (r' + 1 + 2) a =
        doLoop outcomes (r' + 2) (a + 1) := by
      simp [doLoop, he1, hr1]
    have he' : outcomes (a + 1 + m + 1) = some e := by
      rw [show a + 1 + m + 1 = a + (m + 1) + 1 by omega]; exact he
    have tail := ih (a + 1) (r' + 2) e (by omega)
      (fun j hj1 hj2 => hpre j (by omega) (by omega)) he' hnr
    rw [show a + (m + 1) + 1 = a + 1 + m + 1 by omega, step, tail]

/-! ## Claims about the retry loop -/

/-- C1: with a retry budget `N ≥ 1` set through `SetRetries`, if every
attempt fails with an error `shouldRetry` classifies as retryable, `do`
makes exactly `N` attempts and returns the terminal error wrapped with
attempt count `N`. -/
theorem do_exhausts_budget (c : Client) (N : Nat)
    (outcomes : Nat → Option GoErr) (hN : 1 ≤ N)
    (hall : ∀ j, 1 ≤ j → ∃ e, outcomes j = some e ∧ shouldRetry e = true) :
    ∃ e, outcomes N = some e ∧
      (c.SetRetries N).do outcomes =
        ((.error (.wrapped N e), N), c.SetRetries N) := by
  obtain ⟨n, rfl⟩ : ∃ n, N = n + 1 := ⟨N - 1, by omega⟩
  obtain ⟨e, he, _⟩ := hall (n + 1) (by omega)
  refine ⟨e, he, ?_⟩
  have hbudget : ((n + 1 : Nat) : Int).toNat = n + 1 := by omega
  have := doLoop_exhaust outcomes n 0 e
    (fun j hj1 hj2 => hall j (by omega)) (by simpa using he)
  simp only [Client.do, Client.SetRetries, hbudget]
  simp only [Nat.zero_add] at this
  rw [this]

/-- C1 witness: budget 2 with every attempt failing as `ErrGatewayTimeout`
makes exactly 2 attempts and wraps the error with attempt count 2. -/
theorem do_exhausts_budget_witness :
    ∃ e, (fun _ : Nat => some GoErr.gatewayTimeout) 2 = some e ∧
      (Client.SetRetries ⟨0⟩ 2).do (fun _ => some GoErr.gatewayTimeout) =
        ((.error (.wrapped 2 e), 2), Client.SetRetries ⟨0⟩ 2) :=
  do_exhausts_budget ⟨0⟩ 2 (fun _ => some GoErr.gatewayTimeout) (by decide)
    (fun j _ => ⟨.gatewayTimeout, rfl, by decide⟩)

/-- C7: if the first attempt fails with a non-retryable error, `do` makes
exactly 1 attempt, whatever the configured budget, and leaves the client's
stored budget untouched. -/
theorem do_nonretryable_first_attempt (c : Client)
    (outcomes : Nat → Option GoErr) (e : GoErr)
    (h1 : outcomes 1 = some e) (hnr : shouldRetry e = false) :
    (c.do outcomes).1.2 = 1 ∧ (c.do outcomes).2 = c := by
  refine ⟨?_, rfl⟩
  simp only [Client.do]
  rcases ht : c.retries.toNat with _ | _ | r <;>
    simp [doLoop, h1, hnr]

/-- C7 witness: a budget-3 client whose first attempt fails with a plain
non-retryable error makes exactly 1 attempt and is unchanged. -/
theorem do_nonretryable_first_attempt_witness :
    (clientThree.do (fun _ => some (.other "boom"))).1.2 = 1 ∧
      (clientThree.do (fun _ => some (.other "boom"))).2 = clientThree :=
  do_nonretryable_first_attempt clientThree (fun _ => some (.other "boom"))
    (.other "boom") rfl (by decide)

/-- C2 counterexample: a budget-2 client performs a call that consumes one
retry (first attempt fails retryably, second succeeds: 2 attempts). The
claim says the client's stored budget is decremented to 1 by that retry and
that a subsequent call observes the reduced budget; in fact the stored
budget is still 2 afterwards, and an identical subsequent call again makes
2 attempts and succeeds (with budget 1 it would have failed terminally
after 1 attempt). -/
theorem do_budget_not_shared_counterexample :
    (clientTwo.do outcomesOneRetry).1 = (.ok (), 2) ∧
    (clientTwo.do outcomesOneRetry).2.retries = 2 ∧
    ¬ (clientTwo.do outcomesOneRetry).2.retries = 1 ∧
    ((clientTwo.do outcomesOneRetry).2.do outcomesOneRetry).1 = (.ok (), 2) := by
  decide

/-- C2 amended: the retry budget is a per-call allowance. `do` copies the
stored budget into a local counter and never writes it back: the client
record (in particular `retries`) is identical after any call, and a
subsequent call through the returned client behaves exactly like a call
through the original client. -/
theorem do_budget_per_call (c : Client) (outcomes outcomes' : Nat → Option GoErr) :
    (c.do outcomes).2 = c ∧
    ((c.do outcomes).2.do outcomes').1 = (c.do outcomes').1 := by
  exact ⟨rfl, rfl⟩

/-- C6 counterexample: budget 3, first attempt fails retryably, second
attempt fails with a non-retryable error. A retry was performed and the
terminal failure happens on attempt 2, yet the returned error is the bare
error, not wrapped with attempt count 2. -/
theorem do_unwrapped_after_retry_counterexample :
    (clientThree.do outcomesRetryThenFatal).1.2 = 2 ∧
    (clientThree.do outcomesRetryThenFatal).1.1 = .error (.other "boom") ∧
    ¬ (clientThree.do outcomesRetryThenFatal).1.1 =
        .error (.wrapped 2 (.other "boom")) := by
  decide

/-- C6 amended: when the terminal failure occurs on attempt `k ≥ 2` (so at
least one retry was performed), the returned error is wrapped with the
attempt count exactly when the budget is exhausted there (`k = N`); a
non-retryable failure on attempt `k < N` is returned unwrapped after `k`
attempts. -/
theorem do_terminal_wrapping (c : Client) (N k : Nat)
    (outcomes : Nat → Option GoErr) (e : GoErr)
    (hk : 2 ≤ k) (hkN : k ≤ N)
    (hpre : ∀ j, 1 ≤ j → j < k →
      ∃ ej, outcomes j = some ej ∧ shouldRetry ej = true)
    (hke : outcomes k = some e) :
    (k = N →
      ((c.SetRetries N).do outcomes).1 = (.error (.wrapped N e), N)) ∧
    (k < N → shouldRetry e = false →
      ((c.SetRetries N).do outcomes).1 = (.error e, k)) := by
  have hbudget : ((N : Nat) : Int).toNat = N := by omega
  constructor
  · intro hkeq
    subst hkeq
    obtain ⟨n, rfl⟩ : ∃ n, k = n + 1 := ⟨k - 1, by omega⟩
    have := doLoop_exhaust outcomes n 0 e
      (fun j hj1 hj2 => hpre j (by omega) (by omega)) (by simpa using hke)
    simp only [Client.do, Client.SetRetries, hbudget]
    simp only [Nat.zero_add] at this
    rw [this]
  · intro hkN' hnr
    obtain ⟨m, rfl⟩ : ∃ m, k = m + 1 := ⟨k - 1, by omega⟩
    have := doLoop_raw outcomes m 0 N e (by omega)
      (fun j hj1 hj2 => hpre j (by omega) (by omega))
      (by simpa using hke) hnr
    simp only [Client.do, Client.SetRetries, hbudget]
    simp only [Nat.zero_add] at this
    rw [this]

/-- C6 amended witness: budget 3, retryable failure on attempt 1,
non-retryable failure on attempt 2: the call returns the bare error after
2 attempts. -/
theorem do_terminal_wrapping_witness :
    ((Client.SetRetries ⟨3⟩ 3).do outcomesRetryThenFatal).1 =
      (.error (.other "boom"), 2) :=
  (do_terminal_wrapping ⟨3⟩ 3 2 outcomesRetryThenFatal (.other "boom")
    (by decide) (by decide)
    (fun j hj1 hj2 => by
      have hj : j = 1 := by omega
      subst hj
      exact ⟨.gatewayTimeout, rfl, by decide⟩)
    rfl).2 (by decide) (by decide)

/-! ## Pagination scenarios -/

/-- First edge of the first page. -/
def edgeA : Edge := ⟨"cursorA", "a"⟩

/-- Second edge of the first page. -/
def edgeB : Edge := ⟨"cursorB", "b"⟩

/-- Only edge of the second page in the two-page scenario. -/
def edgeC : Edge := ⟨"cursorC", "c"⟩

/-- First page: edges `[a, b]`, `hasNextPage = true`. -/
def pageFirst : Product := ⟨some ⟨[edgeA, edgeB], some ⟨true⟩⟩⟩

/-- Second page of the two-page scenario: edges `[c]`, `hasNextPage = false`. -/
def pageSecond : Product := ⟨some ⟨[edgeC], some ⟨false⟩⟩⟩

/-- A misbehaving server page: zero edges but `hasNextPage = true`. -/
def pageEmptyNext : Product := ⟨some ⟨[], some ⟨true⟩⟩⟩

/-- Server for the two-page scenario. -/
def fetchTwoPages : String → FetchResult :=
  fun s =>
    if s = "" then .ok (some pageFirst)
    else if s = "cursorB" then .ok (some pageSecond)
    else .err (.other "unexpected cursor")

/-- Misbehaving server: first page `[a, b]` with `hasNextPage = true`, every
subsequent page empty with `hasNextPage = true`. -/
def fetchEmptyLoop : String → FetchResult :=
  fun s => if s = "" then .ok (some pageFirst) else .ok (some pageEmptyNext)

/-- Server whose second page fetch fails. -/
def fetchSecondFails : String → FetchResult :=
  fun s => if s = "" then .ok (some pageFirst) else .err (.other "page fetch failed")

/-! ## Claims about the pagination walker -/

/-- C3 (refuted, code bug): against the misbehaving server that answers
every cursor with an empty page marked `hasNextPage = true`, the walk never
terminates: the loop guard reads the edge list of `nextPageData`, which
aliases `out` and therefore holds the accumulated (non-empty) edges rather
than the newly fetched empty page, so the same cursor is refetched for any
amount of fuel. -/
theorem get_empty_page_loops_forever :
    ∀ fuel, (productGet fetchEmptyLoop fuel).1 = GetOutcome.diverge := by
  intro fuel
  have hloop : ∀ g, (getLoop fetchEmptyLoop g [edgeA, edgeB] true).1 =
      LoopOutcome.diverge := by
    intro g
    induction g with
    | zero => rfl
    | succ f ih => exact ih
  rcases h : getLoop fetchEmptyLoop fuel [edgeA, edgeB] true with ⟨r, log⟩
  have hr : r = LoopOutcome.diverge := by
    have := hloop fuel
    rw [h] at this
    exact this
  subst hr
  simp [productGet, fetchEmptyLoop, pageFirst, h]

/-- C4: for the two-page sequence (first page `[a, b]` with
`hasNextPage = true`, second page `[c]` with `hasNextPage = false`), `Get`
performs exactly 2 page fetches — the second with the first page's last
cursor — and returns the product with the accumulated edges `[a, b, c]` in
order (and the first page's `PageInfo`). -/
theorem get_two_pages (fetch : String → FetchResult) (a b c : Edge)
    (fuel : Nat)
    (h1 : fetch "" = .ok (some ⟨some ⟨[a, b], some ⟨true⟩⟩⟩))
    (h2 : fetch b.cursor = .ok (some ⟨some ⟨[c], some ⟨false⟩⟩⟩))
    (hfuel : 2 ≤ fuel) :
    productGet fetch fuel =
      (.ok (some ⟨some ⟨[a, b, c], some ⟨true⟩⟩⟩), ["", b.cursor]) := by
  obtain ⟨f, rfl⟩ : ∃ f, fuel = f + 2 := ⟨fuel - 2, by omega⟩
  have hcur : lastCursor [a, b] = b.cursor := rfl
  have hloop : getLoop fetch (f + 2) [a, b] true =
      (.done [a, b, c], [b.cursor]) := by
    simp [getLoop, hcur, h2]
  simp [productGet, h1, hloop]

/-- C4 witness: the concrete two-page server is walked in exactly 2
fetches, the second with cursor `"cursorB"`, yielding edges in order. -/
theorem get_two_pages_witness :
    productGet fetchTwoPages 2 =
      (.ok (some ⟨some ⟨[edgeA, edgeB, edgeC], some ⟨true⟩⟩⟩),
        ["", "cursorB"]) :=
  get_two_pages fetchTwoPages edgeA edgeB edgeC 2 rfl rfl (by decide)

/-- C9: a page-fetch error inside the loop aborts the whole walk. First
part: whenever the loop ends with an error, `Get` returns exactly that
error (no product, hence none of the accumulated edges). Second part: at
any loop iteration — whatever edges `acc` have been accumulated — a failing
fetch makes the loop return that error immediately, discarding `acc`. -/
theorem get_page_error_aborts :
    (∀ (fetch : String → FetchResult) (fuel : Nat) (p : Product)
        (vc : VariantConnection) (pgi : PageInfo) (e : GoErr)
        (log : List String),
      fetch "" = .ok (some p) → p.variants = some vc →
      vc.pageInfo = some pgi →
      getLoop fetch fuel vc.edges pgi.hasNextPage = (.err e, log) →
      productGet fetch fuel = (.err e, "" :: log)) ∧
    (∀ (fetch : String → FetchResult) (fuel : Nat) (acc : List Edge)
        (e : GoErr),
      acc ≠ [] →
      fetch (lastCursor acc) = .err e →
      getLoop fetch (fuel + 1) acc true = (.err e, [lastCursor acc])) := by
  constructor
  · intro fetch fuel p vc pgi e log h1 hv hp hloop
    obtain ⟨pv⟩ := p
    simp only at hv
    subst hv
    obtain ⟨edges, pio⟩ := vc
    simp only at hp hloop
    subst hp
    simp [productGet, h1, hloop]
  · intro fetch fuel acc e hacc hf
    simp [getLoop, hacc, hf]

/-- C9 witness: with the server whose second fetch fails, `Get` returns
that error after fetches `["", "cursorB"]` and yields no product. -/
theorem get_page_error_aborts_witness :
    productGet fetchSecondFails 1 =
      (.err (.other "page fetch failed"), ["", "cursorB"]) :=
  get_page_error_aborts.1 fetchSecondFails 1 pageFirst
    ⟨[edgeA, edgeB], some ⟨true⟩⟩ ⟨true⟩ (.other "page fetch failed")
    ["cursorB"] rfl rfl rfl
    (get_page_error_aborts.2 fetchSecondFails 0 [edgeA, edgeB]
      (.other "page fetch failed") (by decide) rfl)

/-! ## Claims about `doRequest` error classification -/

/-- A throttling error record. -/
def geMaxCost : GraphError :=
  ⟨"Query cost exceeded", ⟨"MAX_COST_EXCEEDED", 1000, 500, "doc"⟩, []⟩

/-- A non-throttling error record. -/
def geOther : GraphError :=
  ⟨"Field missing", ⟨"GRAPHQL_VALIDATION_FAILED", 0, 0, ""⟩, [(1, 2)]⟩

/-- C5: on a 200 response whose `errors` array is non-empty (and whose
`data`, when present, unmarshals), `doRequest` returns `ErrMaxCostExceeded`
as soon as any record's extensions code is the throttling sentinel,
whatever the other records; otherwise it returns the full ordered error
list, whose `Error()` string is the first record's message. -/
theorem doRequest_classifies_errors {α : Type} (env : Envelope α) (v : α)
    (hne : env.errors ≠ [])
    (hdata : env.data = none ∨ ∃ a, env.data = some (.good a)) :
    ((∃ ge ∈ env.errors, ge.extensions.code = MaxCostExceeded) →
      (doRequest (.response 200 (some env)) v).1 =
        .error .maxCostExceeded) ∧
    ((∀ ge ∈ env.errors, ge.extensions.code ≠ MaxCostExceeded) →
      (doRequest (.response 200 (some env)) v).1 =
        .error (.graphErrs env.errors) ∧
      ∀ ge tl, env.errors = ge :: tl →
        errString (.graphErrs env.errors) = ge.message) := by
  obtain ⟨d, errs⟩ := env
  simp only at hne hdata ⊢
  constructor
  · rintro ⟨ge, hge, hcode⟩
    have hany : errs.any (fun x => x.extensions.code = MaxCostExceeded) = true := by
      simp only [List.any_eq_true, decide_eq_true_eq]
      exact ⟨ge, hge, hcode⟩
    rcases hdata with hd | ⟨a, hd⟩ <;> subst hd <;>
      simp [doRequest, hne, hany]
  · intro hall
    have hany : errs.any (fun x => x.extensions.code = MaxCostExceeded) = false := by
      simp only [List.any_eq_false, decide_eq_true_eq]
      exact hall
    refine ⟨?_, ?_⟩
    · rcases hdata with hd | ⟨a, hd⟩ <;> subst hd <;>
        simp [doRequest, hne, hany]
    · intro ge tl hcons
      subst hcons
      rfl

/-- C5 witness: with data present and decodable and records
`[validation, throttling]`, the call fails with `ErrMaxCostExceeded`. -/
theorem doRequest_classifies_errors_witness :
    (doRequest (.response 200 (some ⟨some (.good (7 : Nat)),
        [geOther, geMaxCost]⟩)) 0).1 = .error .maxCostExceeded :=
  (doRequest_classifies_errors _ 0 (by decide) (.inr ⟨7, rfl⟩)).1
    ⟨geMaxCost, by decide, rfl⟩

/-- C8: on a 200 response with `data` present and a non-empty `errors`
array, `doRequest` never succeeds; and when `data` unmarshals, the
destination has already received the unmarshalled payload when the error is
returned. -/
theorem doRequest_data_and_errors {α : Type} (env : Envelope α) (v : α)
    (d : RawData α) (hd : env.data = some d) (hne : env.errors ≠ []) :
    (∃ e, (doRequest (.response 200 (some env)) v).1 = .error e) ∧
    (∀ a, d = .good a →
      (doRequest (.response 200 (some env)) v).2 = a) := by
  obtain ⟨dd, errs⟩ := env
  simp only at hd hne ⊢
  subst hd
  cases d with
  | bad =>
    refine ⟨⟨.other "unmarshal data", by simp [doRequest]⟩, ?_⟩
    intro a ha
    exact absurd ha (by simp)
  | good a0 =>
    constructor
    · by_cases hany :
        errs.any (fun x => x.extensions.code = MaxCostExceeded) = true
      · exact ⟨.maxCostExceeded, by simp [doRequest, hne, hany]⟩
      · exact ⟨.graphErrs errs, by
          simp [doRequest, hne, Bool.eq_false_iff.mpr hany]⟩
    · intro a ha
      have : a0 = a := by injection ha
      subst this
      by_cases hany :
        errs.any (fun x => x.extensions.code = MaxCostExceeded) = true <;>
        simp [doRequest, hne, hany]

/-- C8 witness: data `7` with one protocol error record: the call fails and
the destination holds `7`. -/
theorem doRequest_data_and_errors_witness :
    (doRequest (.response 200 (some ⟨some (.good (7 : Nat)),
        [geOther]⟩)) 0).2 = 7 :=
  (doRequest_data_and_errors _ 0 (.good 7) rfl (by decide)).2 7 rfl

/-! ## Claim about the authenticating transport -/

/-- C10: `RoundTrip` sets at most one credential scheme per request (each
case updates exactly one field), with fixed precedence: the access-token
header whenever an access token is configured (in particular when basic
auth is also configured), else basic auth when both API key and password
are configured, else the storefront header when a storefront token is
configured; with nothing configured the request is forwarded unchanged. -/
theorem roundTrip_credential_precedence (t : Transport) (req : Request) :
    (t.accessToken ≠ "" →
      RoundTrip t req = { req with accessTokenHeader := some t.accessToken }) ∧
    (t.accessToken = "" → t.apiKey ≠ "" → t.password ≠ "" →
      RoundTrip t req = { req with basicAuth := some (t.apiKey, t.password) }) ∧
    (t.accessToken = "" → (t.apiKey = "" ∨ t.password = "") →
      t.storeFrontAccessToken ≠ "" →
      RoundTrip t req =
        { req with storefrontHeader := some t.storeFrontAccessToken }) ∧
    (t.accessToken = "" → (t.apiKey = "" ∨ t.password = "") →
      t.storeFrontAccessToken = "" → RoundTrip t req = req) := by
  refine ⟨?_, ?_, ?_, ?_⟩
  · intro h
    simp [RoundTrip, h]
  · intro h1 h2 h3
    simp [RoundTrip, h1, h2, h3]
  · intro h1 h2 h3
    rcases h2 with h2 | h2 <;> simp [RoundTrip, h1, h2, h3]
  · intro h1 h2 h3
    rcases h2 with h2 | h2 <;> simp [RoundTrip, h1, h2, h3]

/-- C10 witness: with both an access token and basic-auth credentials
configured, only the access-token header is set. -/
theorem roundTrip_credential_precedence_witness :
    RoundTrip ⟨"tok", "sftok", "key", "pw", "2024-01", "admin/api"⟩
        ⟨none, none, none⟩ =
      { accessTokenHeader := some "tok", basicAuth := none,
        storefrontHeader := none } :=
  (roundTrip_credential_precedence
    ⟨"tok", "sftok", "key", "pw", "2024-01", "admin/api"⟩
    ⟨none, none, none⟩).1 (by decide)

end Shopify
